import Mathlib

/-!
Shallow embedding of the garm-provider-aws runner-lifecycle code
(spec builder in internal/spec/spec.go, EC2 client in the client package,
provider operations in the provider package) together with theorems
settling the specification claims about it.

External collaborators (the AWS EC2 SDK calls, the tool-catalog resolver
`util.GetTools`, the cloud-init generator `cloudconfig.GetCloudConfig`,
JSON unmarshalling and base64 encoding) are passed in as explicit
parameters: each embedded function receives the outcome of the external
call it makes, and the function body mirrors the Go source line by line.
-/

set_option linter.unusedVariables false

namespace GarmAws

/-- A Go error value as observed through this code base: its message and
whether `errors.Is(err, garmErrors.ErrNotFound)` holds.  Wrapping with
`fmt.Errorf("...: %w", err)` prefixes the message and preserves the
NotFound mark; wrapping with `%s` does not preserve it. -/
structure GoError where
  msg : String
  isNotFound : Bool
deriving DecidableEq

/-- Outcome of a Go function returning `(T, error)`: a value, an error, or
a runtime panic (e.g. an out-of-range slice index). -/
inductive GoResult (α : Type) where
  | ok : α → GoResult α
  | err : GoError → GoResult α
  | panic : String → GoResult α
deriving DecidableEq

/-- A resource tag, `types.Tag`: key/value pair. -/
structure Tag where
  key : String
  value : String
deriving DecidableEq

/-- An EC2 instance as it appears in a DescribeInstances response
(`types.Instance`), reduced to the fields this code reads. -/
structure Instance where
  instanceId : String
  tags : List Tag
deriving DecidableEq

/-- A reservation in a DescribeInstances response: a group of instances. -/
structure Reservation where
  instances : List Instance
deriving DecidableEq

/-- A DescribeInstances filter, `types.Filter`: name and accepted values. -/
structure Filter where
  name : String
  values : List String
deriving DecidableEq

/-- Go map indexing `m[k]` on a `map[string]string`: the stored value, or
the zero value `""` when the key is absent. -/
def mapLookup (m : List (String × String)) (k : String) : String :=
  match m.find? (fun p => p.fst == k) with
  | some p => p.snd
  | none => ""

/-- Modelled from the spec of the external EC2 API: a `tag:K` filter with
value list `vs` matches exactly the instances carrying a tag with key `K`
whose value is among `vs`. -/
def matchesTagFilter (key : String) (values : List String) (i : Instance) : Bool :=
  i.tags.any fun t => t.key == key && values.contains t.value

/-- The Go panic message raised by indexing an empty slice at 0. -/
def indexOutOfRangeMsg : String := "runtime error: index out of range [0] with length 0"

/-- `AwsCli.FindInstanceByTags`: builds the two tag filters from the tag
map, calls DescribeInstances (`describe`, the external SDK call), flattens
the reservations, and returns `&instances[0]` — with no length check, so
an empty result set is a panic, not an error. -/
def findInstanceByTags (describe : List Filter → Except GoError (List Reservation))
    (tags : List (String × String)) : GoResult Instance :=
  match describe
      [⟨"tag:GARM_CONTROLLER_ID", [mapLookup tags "GARM_CONTROLLER_ID"]⟩,
       ⟨"tag:Name", [mapLookup tags "Name"]⟩] with
  | .error e => .err ⟨"failed to find instances by tags: " ++ e.msg, e.isNotFound⟩
  | .ok reservations =>
    match reservations.flatMap Reservation.instances with
    | [] => .panic indexOutOfRangeMsg
    | i :: _ => .ok i

/-- Go `strings.HasPrefix(s, pre)`, computed on the character lists. -/
def goHasPrefix (s pre : String) : Bool :=
  pre.data.isPrefixOf s.data

/-- Wrap a terminate error as `DeleteInstance` does; no call when the
resolved instance id is empty (`if inst == "" return nil`). -/
def terminateIfNonEmpty (terminate : String → Except GoError Unit) (inst : String) : GoResult Unit :=
  if inst = "" then .ok ()
  else
    match terminate inst with
    | .error e => .err ⟨"failed to terminate instance: " ++ e.msg, e.isNotFound⟩
    | .ok _ => .ok ()

/-- The name-branch body of `AwsProvider.DeleteInstance`: resolve the id by
tag lookup; a NotFound error from the lookup is absorbed into success; any
other error is wrapped; otherwise terminate the resolved id. -/
def deleteViaLookup (describe : List Filter → Except GoError (List Reservation))
    (terminate : String → Except GoError Unit)
    (tags : List (String × String)) : GoResult Unit :=
  match findInstanceByTags describe tags with
  | .err e =>
    if e.isNotFound then .ok ()
    else .err ⟨"failed to determine instance: " ++ e.msg, e.isNotFound⟩
  | .panic e => .panic e
  | .ok tmp => terminateIfNonEmpty terminate tmp.instanceId

/-- `AwsProvider.DeleteInstance`: an identifier with the provider prefix
`i-` is terminated directly; otherwise the instance is resolved by tag
lookup with the literal tag map constructed in the source, with the
GARM_CONTROLLER_ID entry set to the empty string (the provider's
configured `controllerID` is in scope but unused).  The first component
records the tag map handed to the lookup, when one is issued. -/
def deleteInstance (describe : List Filter → Except GoError (List Reservation))
    (terminate : String → Except GoError Unit)
    (controllerID : String) (instName : String) :
    Option (List (String × String)) × GoResult Unit :=
  if goHasPrefix instName "i-" then
    (none, terminateIfNonEmpty terminate instName)
  else
    let tags : List (String × String) :=
      [("GARM_CONTROLLER_ID", ""), ("Name", instName)]
    (some tags, deleteViaLookup describe terminate tags)

/-- `params.RunnerApplicationDownload`: the tool-download descriptor
resolved from the orchestrator's catalog. -/
structure RunnerApplicationDownload where
  os : String
  architecture : String
  downloadUrl : String
  filename : String
deriving DecidableEq

/-- `params.BootstrapInstance`, reduced to the fields this code reads.
`extraSpecs` is the raw JSON blob (`json.RawMessage`); `osType`/`osArch`
are the string-typed OS type and architecture (`params.Linux = "linux"`,
`params.Windows = "windows"`, `params.Amd64 = "amd64"`). -/
structure BootstrapInstance where
  name : String
  poolId : String
  image : String
  flavor : String
  osType : String
  osArch : String
  extraSpecs : String
deriving DecidableEq

/-- `config.Config`: the static provider configuration fields read by the
spec builder. -/
structure Config where
  region : String
  vpcID : String
deriving DecidableEq

/-- `extraSpecs` (spec.go): the decoded extra-specs override.  The Go zero
value (all fields zero/empty) is what an absent blob decodes to. -/
structure ExtraSpecs where
  minCount : Int
  maxCount : Int
  vpcID : String
  openInboundPorts : List (String × List Int)
  blockDeviceMapping : String
deriving DecidableEq

/-- The Go zero value of `extraSpecs`. -/
def ExtraSpecs.zero : ExtraSpecs :=
  { minCount := 0, maxCount := 0, vpcID := "", openInboundPorts := [], blockDeviceMapping := "" }

/-- `RunnerSpec` (spec.go).  The `subnetID` and `controllerID` fields are
modelled from the spec: the client revision's `CreateRunningInstance`
reads `spec.SubnetID` and `spec.ControllerID`, fields of a spec.go
revision not present in the sources; per the spec's data model they carry
the network identifier and the controller identifier of the resolved
spec. -/
structure RunnerSpec where
  region : String
  tools : RunnerApplicationDownload
  bootstrapParams : BootstrapInstance
  userData : String
  minCount : Int
  maxCount : Int
  vpcID : String
  openInboundPorts : List (String × List Int)
  blockDeviceMapping : String
  subnetID : String
  controllerID : String
deriving DecidableEq

/-- `newExtraSpecsFromBootstrapData`: decode the extra-specs JSON blob
when non-empty (`unmarshal` is the external `json.Unmarshal` outcome),
otherwise keep the zero value; `ensureValidExtraSpec` is a no-op. -/
def newExtraSpecsFromBootstrapData (unmarshal : String → Except GoError ExtraSpecs)
    (data : BootstrapInstance) : Except GoError ExtraSpecs :=
  if data.extraSpecs.length > 0 then
    match unmarshal data.extraSpecs with
    | .error e => .error ⟨"failed to unmarshal extra specs: " ++ e.msg, e.isNotFound⟩
    | .ok s => .ok s
  else .ok ExtraSpecs.zero

/-- `RunnerSpec.Validate`: non-empty region, then non-empty bootstrap
name; `none` means valid. -/
def RunnerSpec.validate (r : RunnerSpec) : Option GoError :=
  if r.region = "" then some ⟨"missing region", false⟩
  else if r.bootstrapParams.name = "" then some ⟨"missing bootstrap params", false⟩
  else none

/-- `RunnerSpec.MergeExtraSpecs`: each override applies only when its
guard holds (`MinCount > 1`, `MaxCount > 1`, non-empty `VpcID`, non-empty
`BlockDeviceMapping`). -/
def RunnerSpec.mergeExtraSpecs (r : RunnerSpec) (e : ExtraSpecs) : RunnerSpec :=
  let r := if e.minCount > 1 then { r with minCount := e.minCount } else r
  let r := if e.maxCount > 1 then { r with maxCount := e.maxCount } else r
  let r := if e.vpcID ≠ "" then { r with vpcID := e.vpcID } else r
  let r := if e.blockDeviceMapping ≠ "" then { r with blockDeviceMapping := e.blockDeviceMapping } else r
  r

/-- `RunnerSpec.ComposeUserData`: delegate to the external cloud-init
generator (`getCloudConfig` is its outcome) for the Linux and Windows OS
types; any other OS type is an error. -/
def RunnerSpec.composeUserData (getCloudConfig : Except GoError String)
    (r : RunnerSpec) : Except GoError String :=
  if r.bootstrapParams.osType = "linux" ∨ r.bootstrapParams.osType = "windows" then
    match getCloudConfig with
    | .error e => .error ⟨"failed to generate userdata: " ++ e.msg, e.isNotFound⟩
    | .ok udata => .ok udata
  else
    .error ⟨"unsupported OS type for cloud config: " ++ r.bootstrapParams.osType, false⟩

/-- `RunnerSpec.SetUserData`: compose the user data, require it non-empty,
base64-encode it (`b64` is the external encoder) and store it.  The
receiver is returned unchanged when an error is produced. -/
def RunnerSpec.setUserData (b64 : String → String) (getCloudConfig : Except GoError String)
    (r : RunnerSpec) : RunnerSpec × Option GoError :=
  match r.composeUserData getCloudConfig with
  | .error e => (r, some ⟨"failed to compose userdata: " ++ e.msg, e.isNotFound⟩)
  | .ok customData =>
    if customData.length = 0 then (r, some ⟨"failed to generate custom data", false⟩)
    else ({ r with userData := b64 customData }, none)

/-- `GetRunnerSpecFromBootstrapParams`: resolve the tools (`getTools` is
the outcome of the external `util.GetTools`, wrapped with `%s` on
failure), decode the extra specs, build the spec with defaults
`MinCount = MaxCount = 1`, merge the overrides, then call `SetUserData`
discarding its error result — exactly as the source does — and return the
spec.  `Validate` is never invoked, and the `controllerID` argument is
never stored. -/
def getRunnerSpecFromBootstrapParams
    (getTools : Except GoError RunnerApplicationDownload)
    (unmarshal : String → Except GoError ExtraSpecs)
    (b64 : String → String)
    (getCloudConfig : Except GoError String)
    (cfg : Config) (data : BootstrapInstance) (controllerID : String) :
    Except GoError RunnerSpec :=
  match getTools with
  | .error e => .error ⟨"failed to get tools: " ++ e.msg, false⟩
  | .ok tools =>
    match newExtraSpecsFromBootstrapData unmarshal data with
    | .error e => .error ⟨"error loading extra specs: " ++ e.msg, e.isNotFound⟩
    | .ok extra =>
      let spec0 : RunnerSpec :=
        { region := cfg.region, tools := tools, bootstrapParams := data,
          userData := "", minCount := 1, maxCount := 1, vpcID := cfg.vpcID,
          openInboundPorts := [], blockDeviceMapping := "",
          subnetID := "", controllerID := "" }
      let spec1 := spec0.mergeExtraSpecs extra
      let spec2 := (spec1.setUserData b64 getCloudConfig).fst
      .ok spec2

/-- `ec2.RunInstancesInput` as built by `AwsCli.CreateRunningInstance`:
image, flavor, the literal launch counts 1/1, subnet, user data, and one
tag specification (a list of tag lists, one per resource type). -/
structure RunInstancesInput where
  imageId : String
  instanceType : String
  maxCount : Int
  minCount : Int
  subnetId : String
  userData : String
  tagSpecifications : List (List Tag)
deriving DecidableEq

/-- The launch request `AwsCli.CreateRunningInstance` builds from a
non-nil runner spec, with the five tags in source order. -/
def runInstancesInputOf (s : RunnerSpec) : RunInstancesInput :=
  { imageId := s.bootstrapParams.image,
    instanceType := s.bootstrapParams.flavor,
    maxCount := 1, minCount := 1,
    subnetId := s.subnetID,
    userData := s.userData,
    tagSpecifications :=
      [[⟨"Name", s.bootstrapParams.name⟩,
        ⟨"GARM_POOL_ID", s.bootstrapParams.poolId⟩,
        ⟨"OSType", s.bootstrapParams.osType⟩,
        ⟨"OSArch", s.bootstrapParams.osArch⟩,
        ⟨"GARM_CONTROLLER_ID", s.controllerID⟩]] }

/-- `AwsCli.CreateRunningInstance`: a nil spec is rejected without any
call; otherwise the single launch request is issued (`callEC2` is the
external RunInstances call, returning the created instances) and
`*resp.Instances[0].InstanceId` is returned — unchecked indexing again.
The first component records the request issued, if any. -/
def createRunningInstance (callEC2 : RunInstancesInput → Except GoError (List Instance))
    (spec? : Option RunnerSpec) : Option RunInstancesInput × GoResult String :=
  match spec? with
  | none => (none, .err ⟨"invalid nil runner spec", false⟩)
  | some s =>
    let input := runInstancesInputOf s
    (some input,
      match callEC2 input with
      | .error e => .err ⟨"failed to create instance: " ++ e.msg, e.isNotFound⟩
      | .ok instances =>
        match instances with
        | [] => .panic indexOutOfRangeMsg
        | i :: _ => .ok i.instanceId)

/-- `params.ProviderInstance`, reduced to the fields `CreateInstance`
sets. -/
structure ProviderInstance where
  providerID : String
  name : String
  osType : String
  osArch : String
  status : String
deriving DecidableEq

/-- An observable step taken by `CreateInstance`: invoking the spec
builder, or issuing the EC2 launch call. -/
inductive CloudCall where
  | specBuild : CloudCall
  | runInstances : RunInstancesInput → CloudCall
deriving DecidableEq

/-- `AwsProvider.CreateInstance`: reject any architecture other than
amd64 up front; otherwise build the runner spec, launch the instance, and
return the normalized record with status "running".  The first component
is the trace of steps taken, in order. -/
def createInstance
    (getTools : Except GoError RunnerApplicationDownload)
    (unmarshal : String → Except GoError ExtraSpecs)
    (b64 : String → String)
    (getCloudConfig : Except GoError String)
    (callEC2 : RunInstancesInput → Except GoError (List Instance))
    (cfg : Config) (controllerID : String)
    (data : BootstrapInstance) : List CloudCall × GoResult ProviderInstance :=
  if data.osArch ≠ "amd64" then
    ([], .err ⟨"unsupported architecture: " ++ data.osArch, false⟩)
  else
    match getRunnerSpecFromBootstrapParams getTools unmarshal b64 getCloudConfig cfg data controllerID with
    | .error e => ([.specBuild], .err ⟨"failed to get runner spec: " ++ e.msg, e.isNotFound⟩)
    | .ok spec =>
      let launched := createRunningInstance callEC2 (some spec)
      let trace := CloudCall.specBuild ::
        (match launched.fst with
         | some input => [CloudCall.runInstances input]
         | none => [])
      match launched.snd with
      | .err e => (trace, .err ⟨"failed to create instance: " ++ e.msg, e.isNotFound⟩)
      | .panic e => (trace, .panic e)
      | .ok instanceID =>
        (trace, .ok { providerID := instanceID,
                      name := spec.bootstrapParams.name,
                      osType := spec.bootstrapParams.osType,
                      osArch := spec.bootstrapParams.osArch,
                      status := "running" })

/-! Concrete example values used by the theorems below. -/

/-- An example tool-download descriptor. -/
def toolsExample : RunnerApplicationDownload :=
  { os := "linux", architecture := "x64",
    downloadUrl := "https://example.com/runner.tgz", filename := "runner.tgz" }

/-- An example provider configuration. -/
def cfgExample : Config := { region := "eu-central-1", vpcID := "vpc-1" }

/-- An example Linux bootstrap request with no extra specs. -/
def linuxData : BootstrapInstance :=
  { name := "runner-1", poolId := "pool-A", image := "ami-1", flavor := "t2.small",
    osType := "linux", osArch := "amd64", extraSpecs := "" }

/-! Theorems settling the claims. -/

/-- Claim C2 (code bug): for a tag filter that matches zero instances,
`FindInstanceByTags` does not return a NotFound error — it indexes the
empty instance slice at 0 and panics.  Here the describe call succeeds
with an empty result set and the function's outcome is the Go
index-out-of-range panic, not an error the caller could absorb. -/
theorem findInstanceByTags_zero_matches_panics :
    findInstanceByTags (fun _ => .ok []) [("GARM_CONTROLLER_ID", ""), ("Name", "runner-1")]
      = .panic indexOutOfRangeMsg := by
  decide

/-- The describe outcome of a world holding the single tagged instance
runner-1. -/
def describeRunnerOne : List Filter → Except GoError (List Reservation) :=
  fun _ => .ok [⟨[⟨"i-0abc", [⟨"Name", "runner-1"⟩, ⟨"GARM_CONTROLLER_ID", "ctrl-1"⟩]⟩]⟩]

/-- The describe outcome once no instance matches the filters. -/
def describeNoMatch : List Filter → Except GoError (List Reservation) :=
  fun _ => .ok []

/-- Claim C1 (code bug): deleting the logical name runner-1 succeeds while
the instance exists, but the second delete — whose tag lookup finds no
matching instance — panics inside `FindInstanceByTags` instead of
resolving to NotFound, so it is not absorbed into success: delete by name
is not idempotent as implemented. -/
theorem deleteInstance_second_delete_panics :
    (deleteInstance describeRunnerOne (fun _ => .ok ()) "ctrl-1" "runner-1").snd = .ok () ∧
    (deleteInstance describeNoMatch (fun _ => .ok ()) "ctrl-1" "runner-1").snd
      = .panic indexOutOfRangeMsg := by
  exact ⟨by decide, by decide⟩

/-- An example bootstrap request with an OS type outside Linux/Windows. -/
def freebsdData : BootstrapInstance :=
  { name := "runner-1", poolId := "pool-A", image := "ami-1", flavor := "t2.small",
    osType := "freebsd", osArch := "amd64", extraSpecs := "" }

/-- An example tool descriptor matching the freebsd request. -/
def freebsdTools : RunnerApplicationDownload :=
  { os := "freebsd", architecture := "x64",
    downloadUrl := "https://example.com/runner.tgz", filename := "runner.tgz" }

/-- Claim C3 (code bug): for an OS type outside Linux/Windows whose tool
resolution succeeds, `GetRunnerSpecFromBootstrapParams` does not fail —
`ComposeUserData` raises the unsupported-OS-type error, but the builder
discards `SetUserData`'s result, so it returns the spec with empty
user-data and no error. -/
theorem getRunnerSpec_unsupported_os_still_returns_spec :
    getRunnerSpecFromBootstrapParams (.ok freebsdTools) (fun _ => .ok ExtraSpecs.zero)
      (fun s => s) (.ok "#cloud-config") cfgExample freebsdData "ctrl-1"
    = .ok { region := "eu-central-1", tools := freebsdTools, bootstrapParams := freebsdData,
            userData := "", minCount := 1, maxCount := 1, vpcID := "vpc-1",
            openInboundPorts := [], blockDeviceMapping := "", subnetID := "", controllerID := "" } := by
  rfl

/-- An example bootstrap request with an empty runner name. -/
def emptyNameData : BootstrapInstance :=
  { name := "", poolId := "pool-A", image := "ami-1", flavor := "t2.small",
    osType := "linux", osArch := "amd64", extraSpecs := "" }

/-- The spec the builder produces from an empty region and empty name. -/
def invalidBuiltSpec : RunnerSpec :=
  { region := "", tools := toolsExample, bootstrapParams := emptyNameData,
    userData := "#cloud-config", minCount := 1, maxCount := 1, vpcID := "",
    openInboundPorts := [], blockDeviceMapping := "", subnetID := "", controllerID := "" }

/-- Claim C4 (code bug): with an empty region and an empty bootstrap name,
`GetRunnerSpecFromBootstrapParams` returns the spec with no error, even
though the spec's own `Validate` — which the builder never invokes —
rejects exactly that spec. -/
theorem getRunnerSpec_skips_validation :
    getRunnerSpecFromBootstrapParams (.ok toolsExample) (fun _ => .ok ExtraSpecs.zero)
      (fun s => s) (.ok "#cloud-config") { region := "", vpcID := "" } emptyNameData "ctrl-1"
      = .ok invalidBuiltSpec
    ∧ invalidBuiltSpec.validate = some ⟨"missing region", false⟩ := by
  exact ⟨rfl, by decide⟩

/-- Claim C5: for every non-nil runner spec, `CreateRunningInstance`
issues exactly one launch request, and its tag specification carries the
five tags Name, GARM_POOL_ID, GARM_CONTROLLER_ID, OSType, OSArch with the
values taken from the spec; a nil spec is rejected with the
invalid-argument error and no request is issued. -/
theorem createRunningInstance_five_tags_and_nil_reject
    (s : RunnerSpec) (callEC2 : RunInstancesInput → Except GoError (List Instance)) :
    (createRunningInstance callEC2 (some s)).fst = some (runInstancesInputOf s) ∧
    (∀ kv ∈ [Tag.mk "Name" s.bootstrapParams.name,
             Tag.mk "GARM_POOL_ID" s.bootstrapParams.poolId,
             Tag.mk "GARM_CONTROLLER_ID" s.controllerID,
             Tag.mk "OSType" s.bootstrapParams.osType,
             Tag.mk "OSArch" s.bootstrapParams.osArch],
       ∃ tl ∈ (runInstancesInputOf s).tagSpecifications, kv ∈ tl) ∧
    createRunningInstance callEC2 none = (none, .err ⟨"invalid nil runner spec", false⟩) := by
  refine ⟨rfl, ?_, rfl⟩
  intro kv hkv
  refine ⟨_, List.mem_singleton.mpr rfl, ?_⟩
  fin_cases hkv <;> simp [runInstancesInputOf]

/-- Claim C6: `FindInstanceByTags` never returns an instance whose
GARM_CONTROLLER_ID tag differs from the filter's controller value, as
long as the external describe call honours the controller tag filter
(every returned instance matches it) — tenancy isolation, regardless of
the Name tag. -/
theorem findInstanceByTags_controller_isolation
    (describe : List Filter → Except GoError (List Reservation))
    (tags : List (String × String)) (i : Instance)
    (hAPI : ∀ fs res, describe fs = .ok res → ∀ f ∈ fs, f.name = "tag:GARM_CONTROLLER_ID" →
        ∀ r ∈ res, ∀ j ∈ r.instances, matchesTagFilter "GARM_CONTROLLER_ID" f.values j = true)
    (hDiff : ∀ t ∈ i.tags, t.key = "GARM_CONTROLLER_ID" →
        t.value ≠ mapLookup tags "GARM_CONTROLLER_ID") :
    findInstanceByTags describe tags ≠ .ok i := by
  intro hok
  unfold findInstanceByTags at hok
  cases hdesc : describe [⟨"tag:GARM_CONTROLLER_ID", [mapLookup tags "GARM_CONTROLLER_ID"]⟩,
      ⟨"tag:Name", [mapLookup tags "Name"]⟩] with
  | error e => rw [hdesc] at hok; simp at hok
  | ok res =>
    rw [hdesc] at hok
    dsimp only at hok
    cases hflat : res.flatMap Reservation.instances with
    | nil => rw [hflat] at hok; simp at hok
    | cons j rest =>
      rw [hflat] at hok
      simp only [GoResult.ok.injEq] at hok
      subst hok
      have hi : j ∈ res.flatMap Reservation.instances := by
        rw [hflat]; exact List.mem_cons_self _ _
      obtain ⟨r, hr, hjr⟩ := List.mem_flatMap.mp hi
      have hmatch := hAPI _ res hdesc
        ⟨"tag:GARM_CONTROLLER_ID", [mapLookup tags "GARM_CONTROLLER_ID"]⟩
        (by simp) rfl r hr j hjr
      unfold matchesTagFilter at hmatch
      rw [List.any_eq_true] at hmatch
      obtain ⟨t, ht, hpred⟩ := hmatch
      rw [Bool.and_eq_true] at hpred
      obtain ⟨hk, hv⟩ := hpred
      rw [beq_iff_eq] at hk
      simp only [List.contains_cons, List.contains_nil, Bool.or_false, beq_iff_eq] at hv
      exact hDiff t ht hk hv

/-- Witness for claim C6 at a concrete input: looking up controller
ctrl-1 never yields an instance tagged with controller ctrl-2, even
though its Name tag matches. -/
theorem findInstanceByTags_controller_isolation_witness :
    findInstanceByTags (fun _ => .ok [])
      [("GARM_CONTROLLER_ID", "ctrl-1"), ("Name", "runner-1")]
      ≠ .ok ⟨"i-9", [⟨"GARM_CONTROLLER_ID", "ctrl-2"⟩, ⟨"Name", "runner-1"⟩]⟩ :=
  findInstanceByTags_controller_isolation (fun _ => .ok [])
    [("GARM_CONTROLLER_ID", "ctrl-1"), ("Name", "runner-1")]
    ⟨"i-9", [⟨"GARM_CONTROLLER_ID", "ctrl-2"⟩, ⟨"Name", "runner-1"⟩]⟩
    (by
      intro fs res h f hf hn r hr j hj
      injection h with h
      subst h
      exact absurd hr (List.not_mem_nil r))
    (by decide)

/-- Claim C7: starting from the defaults `MinCount = MaxCount = 1`, the
merged counts are each at least 1 whatever the override values are —
overrides of at most 1 (including zero and negatives) leave the
defaults in place. -/
theorem mergeExtraSpecs_counts_monotonic (r : RunnerSpec) (e : ExtraSpecs)
    (hmin : r.minCount = 1) (hmax : r.maxCount = 1) :
    1 ≤ (r.mergeExtraSpecs e).minCount ∧ 1 ≤ (r.mergeExtraSpecs e).maxCount := by
  unfold RunnerSpec.mergeExtraSpecs
  split_ifs <;> simp_all <;> omega

/-- An example fully-resolved runner spec with the default counts. -/
def specExample : RunnerSpec :=
  { region := "eu-central-1", tools := toolsExample, bootstrapParams := linuxData,
    userData := "dXNlcg==", minCount := 1, maxCount := 1, vpcID := "vpc-1",
    openInboundPorts := [], blockDeviceMapping := "", subnetID := "subnet-1",
    controllerID := "ctrl-1" }

/-- Witness for claim C7 at a concrete input: overrides 0 and -3 leave
both counts at 1. -/
theorem mergeExtraSpecs_counts_monotonic_witness :
    1 ≤ (specExample.mergeExtraSpecs ⟨0, -3, "", [], ""⟩).minCount ∧
    1 ≤ (specExample.mergeExtraSpecs ⟨0, -3, "", [], ""⟩).maxCount :=
  mergeExtraSpecs_counts_monotonic specExample ⟨0, -3, "", [], ""⟩ rfl rfl

/-- The extra-specs override raising only the minimum count. -/
def minFiveExtra : ExtraSpecs :=
  { minCount := 5, maxCount := 1, vpcID := "", openInboundPorts := [], blockDeviceMapping := "" }

/-- A bootstrap request carrying the min-raising extra-specs JSON. -/
def minFiveData : BootstrapInstance :=
  { name := "runner-1", poolId := "pool-A", image := "ami-1", flavor := "t2.small",
    osType := "linux", osArch := "amd64",
    extraSpecs := "\x7b\"MinCount\": 5, \"MaxCount\": 1\x7d" }

/-- The spec the builder produces from that request. -/
def minFiveSpec : RunnerSpec :=
  { region := "eu-central-1", tools := toolsExample, bootstrapParams := minFiveData,
    userData := "#cloud-config", minCount := 5, maxCount := 1, vpcID := "vpc-1",
    openInboundPorts := [], blockDeviceMapping := "", subnetID := "", controllerID := "" }

/-- Counterexample to claim C8 as stated: an extra-specs override of
MinCount 5 with MaxCount 1 makes the builder produce a spec with
min_count = 5 above max_count = 1, so min_count ≤ max_count does not hold
for every produced spec. -/
theorem builder_min_above_max_counterexample :
    getRunnerSpecFromBootstrapParams (.ok toolsExample) (fun _ => .ok minFiveExtra)
      (fun s => s) (.ok "#cloud-config") cfgExample minFiveData "ctrl-1"
    = .ok minFiveSpec ∧ ¬ (minFiveSpec.minCount ≤ minFiveSpec.maxCount) := by
  exact ⟨rfl, by decide⟩

/-- `SetUserData` never changes the minimum count of the spec. -/
theorem setUserData_fst_minCount (b64 : String → String) (gcc : Except GoError String)
    (r : RunnerSpec) : ((r.setUserData b64 gcc).fst).minCount = r.minCount := by
  unfold RunnerSpec.setUserData
  cases r.composeUserData gcc with
  | error e => rfl
  | ok c => by_cases hc : c.length = 0 <;> simp [hc]

/-- `SetUserData` never changes the maximum count of the spec. -/
theorem setUserData_fst_maxCount (b64 : String → String) (gcc : Except GoError String)
    (r : RunnerSpec) : ((r.setUserData b64 gcc).fst).maxCount = r.maxCount := by
  unfold RunnerSpec.setUserData
  cases r.composeUserData gcc with
  | error e => rfl
  | ok c => by_cases hc : c.length = 0 <;> simp [hc]

/-- The merged minimum count is the override when above 1, else the
pre-merge value. -/
theorem mergeExtraSpecs_minCount (r : RunnerSpec) (e : ExtraSpecs) :
    (r.mergeExtraSpecs e).minCount = if e.minCount > 1 then e.minCount else r.minCount := by
  unfold RunnerSpec.mergeExtraSpecs
  split_ifs <;> rfl

/-- The merged maximum count is the override when above 1, else the
pre-merge value. -/
theorem mergeExtraSpecs_maxCount (r : RunnerSpec) (e : ExtraSpecs) :
    (r.mergeExtraSpecs e).maxCount = if e.maxCount > 1 then e.maxCount else r.maxCount := by
  unfold RunnerSpec.mergeExtraSpecs
  split_ifs <;> rfl

/-- Claim C8 as amended: every spec the builder returns has min_count ≥ 1
and max_count ≥ 1; the relation min_count ≤ max_count does not hold in
general. -/
theorem builder_counts_at_least_one
    (getTools : Except GoError RunnerApplicationDownload)
    (unmarshal : String → Except GoError ExtraSpecs) (b64 : String → String)
    (gcc : Except GoError String) (cfg : Config) (data : BootstrapInstance)
    (cid : String) (s : RunnerSpec)
    (h : getRunnerSpecFromBootstrapParams getTools unmarshal b64 gcc cfg data cid = .ok s) :
    1 ≤ s.minCount ∧ 1 ≤ s.maxCount := by
  unfold getRunnerSpecFromBootstrapParams at h
  cases getTools with
  | error e => simp at h
  | ok tools =>
    dsimp only at h
    cases hx : newExtraSpecsFromBootstrapData unmarshal data with
    | error e => rw [hx] at h; simp at h
    | ok extra =>
      rw [hx] at h
      dsimp only at h
      simp only [Except.ok.injEq] at h
      subst h
      rw [setUserData_fst_minCount, setUserData_fst_maxCount,
        mergeExtraSpecs_minCount, mergeExtraSpecs_maxCount]
      constructor <;> split <;> first | omega | simp

/-- The spec the builder produces from the plain Linux request. -/
def builtLinuxSpec : RunnerSpec :=
  { region := "eu-central-1", tools := toolsExample, bootstrapParams := linuxData,
    userData := "#cloud-config", minCount := 1, maxCount := 1, vpcID := "vpc-1",
    openInboundPorts := [], blockDeviceMapping := "", subnetID := "", controllerID := "" }

/-- Witness for the amended claim C8 at a concrete input. -/
theorem builder_counts_at_least_one_witness :
    1 ≤ builtLinuxSpec.minCount ∧ 1 ≤ builtLinuxSpec.maxCount :=
  builder_counts_at_least_one (.ok toolsExample) (fun _ => .ok ExtraSpecs.zero) (fun s => s)
    (.ok "#cloud-config") cfgExample linuxData "ctrl-1" builtLinuxSpec rfl

/-- Claim C9: any bootstrap request whose architecture is not amd64 is
rejected by `CreateInstance` with the unsupported-architecture error and
an empty trace: the spec builder is never invoked and no cloud call is
issued. -/
theorem createInstance_rejects_non_amd64
    (getTools : Except GoError RunnerApplicationDownload)
    (unmarshal : String → Except GoError ExtraSpecs) (b64 : String → String)
    (gcc : Except GoError String) (callEC2 : RunInstancesInput → Except GoError (List Instance))
    (cfg : Config) (cid : String) (data : BootstrapInstance)
    (h : data.osArch ≠ "amd64") :
    createInstance getTools unmarshal b64 gcc callEC2 cfg cid data
      = ([], .err ⟨"unsupported architecture: " ++ data.osArch, false⟩) := by
  simp [createInstance, h]

/-- An example arm64 bootstrap request. -/
def armData : BootstrapInstance :=
  { name := "runner-1", poolId := "pool-A", image := "ami-1", flavor := "t2.small",
    osType := "linux", osArch := "arm64", extraSpecs := "" }

/-- Witness for claim C9 at a concrete input: an arm64 request is
rejected with no steps taken. -/
theorem createInstance_rejects_non_amd64_witness :
    createInstance (.ok toolsExample) (fun _ => .ok ExtraSpecs.zero) (fun s => s)
      (.ok "#cloud-config") (fun _ => .ok []) cfgExample "ctrl-1" armData
      = ([], .err ⟨"unsupported architecture: " ++ armData.osArch, false⟩) :=
  createInstance_rejects_non_amd64 (.ok toolsExample) (fun _ => .ok ExtraSpecs.zero)
    (fun s => s) (.ok "#cloud-config") (fun _ => .ok []) cfgExample "ctrl-1" armData
    (by decide)

/-- Claim C10: every name-based delete (identifier without the i- prefix)
hands the tag lookup the literal map whose GARM_CONTROLLER_ID entry is
the empty string — never the provider's configured controller ID, which
`DeleteInstance` ignores. -/
theorem deleteInstance_by_name_uses_empty_controller_filter
    (describe : List Filter → Except GoError (List Reservation))
    (terminate : String → Except GoError Unit) (cid instName : String)
    (h : goHasPrefix instName "i-" = false) :
    (deleteInstance describe terminate cid instName).fst
      = some [("GARM_CONTROLLER_ID", ""), ("Name", instName)] ∧
    mapLookup [("GARM_CONTROLLER_ID", ""), ("Name", instName)] "GARM_CONTROLLER_ID" = "" := by
  constructor
  · simp [deleteInstance, h]
  · rfl

/-- Witness for claim C10 at a concrete input. -/
theorem deleteInstance_by_name_uses_empty_controller_filter_witness :
    (deleteInstance (fun _ => .ok []) (fun _ => .ok ()) "ctrl-1" "runner-1").fst
      = some [("GARM_CONTROLLER_ID", ""), ("Name", "runner-1")] ∧
    mapLookup [("GARM_CONTROLLER_ID", ""), ("Name", "runner-1")] "GARM_CONTROLLER_ID" = "" :=
  deleteInstance_by_name_uses_empty_controller_filter (fun _ => .ok []) (fun _ => .ok ())
    "ctrl-1" "runner-1" (by decide)

end GarmAws
